import Mathlib

/-
Verification of the aufs5-standalone transactional core against its
natural-language specification.

Shallow embedding of:
  fs/aufs/plink.c    -- pseudo-link table and maintenance gate
  fs/aufs/i_op_add.c -- entry-creation transactions (create/symlink/mknod,
                        mkdir, tmpfile) with whiteout handling and rollback

External collaborators (vfsub_*, au_wr_dir, au_pin, au_wh_*, au_new_inode,
au_diropq_*, memory allocation, lock acquisition) are modelled as an
environment record carrying the outcome each call would produce; the
control flow of the C functions is reproduced faithfully over those
outcomes.  Error codes are the negated errno values the C code returns.
-/

namespace Aufs

/- errno values used by the modelled code (positive magnitudes). -/
def enoent : Int := 2
def eagain : Int := 11
def enomem : Int := 12
def ebusy : Int := 16
def eexist : Int := 17
def enospc : Int := 28
def eisdir : Int := 21
def enotdir : Int := 20
def enametoolong : Int := 36
def eopnotsupp : Int := 95
def eioerr : Int := 5

/- AUFS_MAX_NAMELEN from the aufs headers (NAME_MAX). -/
def aufsMaxNamelen : Nat := 255

/- AUFS_PLINK_WARN: soft limit on a plink hash-chain length. -/
def aufsPlinkWarn : Nat := 50

/- ------------------------------------------------------------------ -/
/- fs/aufs/plink.c                                                    -/
/- ------------------------------------------------------------------ -/

/--
State shared by the plink subsystem of one super block (struct au_sbinfo):
the PLINK mount flag, si_plink_maint_pid (0 when nobody maintains),
the pseudo-link hash table (modelled as the multiset of inode numbers it
contains; one inode always hashes to the same bucket, so per-bucket
membership coincides with global membership), the strong inode references
held by the table (au_igrab / iput, as a multiset of inode numbers),
the wait queue si_plink_wq, and counters for the two pr_warn sites of
au_plink_append.
-/
structure PlinkSt where
  plinkEnabled : Bool
  maintPid : Nat
  table : List Nat
  refs : List Nat
  waiters : List Nat
  chainWarns : Nat
  damagedWarns : Nat
deriving DecidableEq, Repr

/-- au_plink_test: bucket scan under hlist_bl_lock, true iff the inode is
in the table. -/
def au_plink_test (i : Nat) (s : PlinkSt) : Bool :=
  s.table.contains i

/-- The section of au_plink_append executed under hlist_bl_lock of the
bucket of inode i: re-scan the chain; if the inode is absent, add it at
the head.  Returns the updated bucket and the found flag. -/
def plinkCheckInsert (table : List Nat) (i : Nat) : List Nat × Bool :=
  if table.contains i then (table, true) else (i :: table, false)

/--
au_plink_append for inode i.  whplinkErr is the result the whplink
link-farm materialization would return (0 on success).  The C function
returns void; the model returns only the new state.
-/
def au_plink_append (whplinkErr : Int) (i : Nat) (s : PlinkSt) : PlinkSt :=
  if au_plink_test i s then s
  else
    let s1 : PlinkSt := { s with refs := i :: s.refs }
    let ci := plinkCheckInsert s1.table i
    let s2 : PlinkSt := { s1 with table := ci.1 }
    if ci.2 then
      { s2 with refs := s2.refs.erase i }
    else
      let s3 : PlinkSt :=
        if aufsPlinkWarn < s2.table.length then
          { s2 with chainWarns := s2.chainWarns + 1 }
        else s2
      if whplinkErr = 0 then s3
      else
        { s3 with table := s3.table.erase i,
                  refs := s3.refs.erase i,
                  damagedWarns := s3.damagedWarns + 1 }

/-- au_plink_maint_leave: clear si_plink_maint_pid and wake_up_all on
si_plink_wq.  Returns the new state and the set of woken waiters. -/
def au_plink_maint_leave (s : PlinkSt) : PlinkSt × List Nat :=
  ({ s with maintPid := 0, waiters := [] }, s.waiters)

/-- au_plink_maint_enter for a caller whose pid is p: under si_write_lock,
when the PLINK option is set, claim si_plink_maint_pid if it is free,
otherwise fail with -EBUSY.  With PLINK clear nothing is recorded and the
call succeeds. -/
def au_plink_maint_enter (p : Nat) (s : PlinkSt) : PlinkSt × Int :=
  if s.plinkEnabled then
    if s.maintPid = 0 then ({ s with maintPid := p }, 0)
    else (s, -ebusy)
  else (s, 0)

/-- AuLock flags of au_plink_maint (NOPLM fast-fail, NOPLMW blocking). -/
structure MaintFlags where
  noplm : Bool
  noplmw : Bool
deriving DecidableEq, Repr

/-- Outcome of au_plink_maint: ok (err 0, no waiting), busy (-EAGAIN), or
blocked (the NOPLMW wait_event loop runs until si_plink_maint_pid drops
to zero, after which the function returns 0). -/
inductive MaintRes where
  | ok
  | busy
  | blocked
deriving DecidableEq, Repr

/--
au_plink_maint called by a task with pid callerPid whose chain of real
parents has the pids in ancestors: report 0 at once when PLINK is off,
when nobody maintains, when the caller is the maintainer, or when the
maintainer is an ancestor of the caller; otherwise block (NOPLMW),
fail -EAGAIN (NOPLM), or fall through with 0 (neither flag).
-/
def au_plink_maint (s : PlinkSt) (callerPid : Nat) (ancestors : List Nat)
    (fl : MaintFlags) : MaintRes :=
  if ¬ s.plinkEnabled then .ok
  else if s.maintPid = 0 ∨ s.maintPid = callerPid then .ok
  else if ancestors.contains s.maintPid then .ok
  else if fl.noplmw then .blocked
  else if fl.noplm then .busy
  else .ok

/-- Sequential enter calls from a list of pids, collecting each result. -/
def enterSeq (ps : List Nat) (s : PlinkSt) : PlinkSt × List Int :=
  match ps with
  | [] => (s, [])
  | p :: rest =>
    let r := au_plink_maint_enter p s
    let rr := enterSeq rest r.1
    (rr.1, r.2 :: rr.2)

/- ------------------------------------------------------------------ -/
/- fs/aufs/i_op_add.c                                                 -/
/- ------------------------------------------------------------------ -/

/-- Externally visible calls the creation transactions issue, in program
order.  branchSelect is au_wr_dir, dtimeStore is au_dtime_store,
whLookup is au_wh_lkup, nativeCreate covers vfsub_create / vfsub_symlink
/ vfsub_mknod, whUnlink is au_wh_unlink_dentry, newInode is au_new_inode,
dirTs is au_dir_ts plus inode_inc_iversion, whRecreate is the au_wh_create
revert attempt, unlinkRevert is the vfsub_unlink revert,
diropqCreate / diropqRemove are au_diropq_create / au_diropq_remove,
rmdirRevert is the vfsub_rmdir revert, dtimeRevert is au_dtime_revert,
vfsTmpfile is vfs_tmpfile and cpupTimes is au_cpup_attr_timesizes. -/
inductive Event where
  | branchSelect
  | dtimeStore
  | whLookup
  | nativeCreate
  | nativeMkdir
  | whUnlink
  | newInode
  | instantiate
  | dirTs
  | whRecreate
  | unlinkRevert
  | diropqCreate
  | diropqRemove
  | rmdirRevert
  | dtimeRevert
  | vfsTmpfile
  | cpupTimes
deriving DecidableEq, Repr

/-- au_d_may_add: -ENOENT for an unhashed dentry, -EEXIST for a positive
one; the positive check runs second and overwrites the first. -/
def au_d_may_add (unhashed positive : Bool) : Int :=
  let err : Int := 0
  let err := if unhashed then -enoent else err
  let err := if positive then -eexist else err
  err

/-- Arguments and branch facts consumed by au_may_add. -/
structure MayAddArgs where
  nameLen : Nat
  dNegative : Bool
  hPositive : Bool
  hNlink : Nat
  hIsDir : Bool
  isdir : Bool
  hParentMatches : Bool
deriving DecidableEq, Repr

/-- au_may_add: name-length bound, then the vfs-style checks on the
branch dentry, then the parent identity check. -/
def au_may_add (a : MayAddArgs) : Int :=
  if aufsMaxNamelen < a.nameLen then -enametoolong
  else if a.dNegative then
    if a.hPositive then -eexist
    else if ¬ a.hParentMatches then -eioerr else 0
  else
    if ¬ a.hPositive then -eioerr
    else if a.hNlink = 0 then -eioerr
    else if ¬ a.isdir ∧ a.hIsDir then -eisdir
    else if a.isdir ∧ ¬ a.hIsDir then -enotdir
    else if ¬ a.hParentMatches then -eioerr else 0

/-- Environment of lock_hdir_lkup_wh: results the external calls would
produce, and the dentry facts it reads.  wrDirRes is the au_wr_dir
result (the target branch index bcpup when non-negative, an error when
negative); pinErr the au_pin result; udbaNotNone whether the mount udba
mode differs from AuOpt_UDBA_NONE; dbtopEqBcpup whether au_dbtop equals
bcpup; mayAdd the facts au_may_add reads; dbwh the au_dbwh value of the
dentry (-1 when no whiteout is recorded); whLkupErr the au_wh_lkup
result (0 means the whiteout dentry is returned). -/
structure LkupEnv where
  wrDirRes : Int
  pinErr : Int
  udbaNotNone : Bool
  dbtopEqBcpup : Bool
  mayAdd : MayAddArgs
  dbwh : Int
  whLkupErr : Int
deriving DecidableEq, Repr

/-- Result of a successful lock_hdir_lkup_wh: the whiteout dentry handle
(none when whiteout handling was skipped) and the resolved branch. -/
structure LkupWhResult where
  wh : Option Unit
  bcpup : Int
deriving DecidableEq, Repr

/-- The validation error computed between au_pin and the dtime snapshot:
au_may_add when udba is active and the cached top equals bcpup, otherwise
only the name-length bound. -/
def lkupCheckErr (e : LkupEnv) : Int :=
  if e.udbaNotNone ∧ e.dbtopEqBcpup then au_may_add e.mayAdd
  else if aufsMaxNamelen < e.mayAdd.nameLen then -enametoolong else 0

/--
lock_hdir_lkup_wh: au_wr_dir, au_pin, validation, dtime snapshot, then
the whiteout lookup exactly when bcpup equals au_dbwh; when they differ
the function returns successfully with a null whiteout dentry.
The event list records which external calls ran.
-/
def lock_hdir_lkup_wh (e : LkupEnv) : Except Int LkupWhResult × List Event :=
  if e.wrDirRes < 0 then (.error e.wrDirRes, [.branchSelect])
  else if e.pinErr ≠ 0 then (.error e.pinErr, [.branchSelect])
  else if lkupCheckErr e ≠ 0 then (.error (lkupCheckErr e), [.branchSelect])
  else if e.wrDirRes ≠ e.dbwh then
    (.ok ⟨none, e.wrDirRes⟩, [.branchSelect, .dtimeStore])
  else if e.whLkupErr ≠ 0 then
    (.error e.whLkupErr, [.branchSelect, .dtimeStore, .whLookup])
  else
    (.ok ⟨some (), e.wrDirRes⟩, [.branchSelect, .dtimeStore, .whLookup])

/-- Environment of epilog: the results of au_wh_unlink_dentry,
au_new_inode (0 means success) and au_wh_create (whCreateOk true means
the whiteout was recreated). -/
structure EpilogEnv where
  whUnlinkErr : Int
  newInodeErr : Int
  whCreateOk : Bool
deriving DecidableEq, Repr

/--
epilog: with a whiteout dentry, unlink the whiteout first (returning its
error on failure); then au_new_inode plus d_instantiate and the parent
timestamp update on success; on au_new_inode failure with a whiteout,
attempt au_wh_create and keep the original error when it succeeds or
turn the error into -EIO when it fails.
-/
def epilog (e : EpilogEnv) (hasWh : Bool) : Int × List Event :=
  if hasWh ∧ e.whUnlinkErr ≠ 0 then (e.whUnlinkErr, [.whUnlink])
  else
    let tr0 : List Event := if hasWh then [.whUnlink] else []
    if e.newInodeErr = 0 then (0, tr0 ++ [.newInode, .instantiate, .dirTs])
    else if ¬ hasWh then (e.newInodeErr, tr0 ++ [.newInode])
    else if e.whCreateOk then (e.newInodeErr, tr0 ++ [.newInode, .whRecreate])
    else (-eioerr, tr0 ++ [.newInode, .whRecreate])

/-- Environment of add_simple (aufs_create / aufs_symlink / aufs_mknod):
kmalloc outcome, aufs_read_lock result, the two au_d_may_add facts, the
lock_hdir_lkup_wh environment, the native creation result, the epilog
environment and the vfsub_unlink revert result. -/
structure SimpleEnv where
  kmallocOk : Bool
  readLockErr : Int
  dUnhashed : Bool
  dPositive : Bool
  lw : LkupEnv
  createErr : Int
  ep : EpilogEnv
  unlinkRevertErr : Int
deriving DecidableEq, Repr

/--
add_simple: allocation, aufs_read_lock, au_d_may_add, parent lock and
lock_hdir_lkup_wh, the native creation call, epilog, and on epilog
failure of a just-created entry the unlink revert plus dtime revert,
escalating to -EIO when the revert itself fails.
-/
def add_simple (e : SimpleEnv) : Int × List Event :=
  if ¬ e.kmallocOk then (-enomem, [])
  else if e.readLockErr ≠ 0 then (e.readLockErr, [])
  else if au_d_may_add e.dUnhashed e.dPositive ≠ 0 then
    (au_d_may_add e.dUnhashed e.dPositive, [])
  else
    match lock_hdir_lkup_wh e.lw with
    | (.error err, tr) => (err, tr)
    | (.ok r, tr) =>
      let tr := tr ++ [.nativeCreate]
      if e.createErr ≠ 0 then (e.createErr, tr)
      else
        let ep := epilog e.ep r.wh.isSome
        let tr := tr ++ ep.2
        if ep.1 = 0 then (0, tr)
        else
          let tr := tr ++ [.unlinkRevert, .dtimeRevert]
          if e.unlinkRevertErr ≠ 0 then (-eioerr, tr) else (ep.1, tr)

/-- Native side effects a mkdir transaction can leave behind: whether the
new branch directory exists and whether its opaque marker exists. -/
structure DirSt where
  dirExists : Bool
  opaqueExists : Bool
deriving DecidableEq, Repr

/-- Environment of aufs_mkdir: as for add_simple, plus vfsub_mkdir,
au_diropq_create, au_diropq_remove and the vfsub_rmdir revert. -/
structure MkdirEnv where
  kmallocOk : Bool
  readLockErr : Int
  dUnhashed : Bool
  dPositive : Bool
  lw : LkupEnv
  mkdirErr : Int
  diropqCreateErr : Int
  ep : EpilogEnv
  diropqRemoveErr : Int
  rmdirErr : Int
deriving DecidableEq, Repr

/-- The out_dir tail of aufs_mkdir: vfsub_rmdir of the just-created
directory (escalating the pending error to -EIO when it fails) followed
by au_dtime_revert. -/
def mkdirRevertDir (e : MkdirEnv) (err : Int) (st : DirSt) :
    Int × List Event × DirSt :=
  if e.rmdirErr ≠ 0 then
    (-eioerr, [.rmdirRevert, .dtimeRevert], st)
  else
    (err, [.rmdirRevert, .dtimeRevert], { st with dirExists := false })

/--
aufs_mkdir: allocation, aufs_read_lock, au_d_may_add, parent lock and
lock_hdir_lkup_wh, vfsub_mkdir, au_diropq_create when a whiteout dentry
exists, epilog; on epilog failure the reverts run in reverse order:
au_diropq_remove when the marker was set (escalating to -EIO on failure
without stopping), then vfsub_rmdir (same escalation), then
au_dtime_revert.  Returns the error, the event list and the native
directory state left behind.
-/
def aufs_mkdir (e : MkdirEnv) : Int × List Event × DirSt :=
  if ¬ e.kmallocOk then (-enomem, [], ⟨false, false⟩)
  else if e.readLockErr ≠ 0 then (e.readLockErr, [], ⟨false, false⟩)
  else if au_d_may_add e.dUnhashed e.dPositive ≠ 0 then
    (au_d_may_add e.dUnhashed e.dPositive, [], ⟨false, false⟩)
  else
    match lock_hdir_lkup_wh e.lw with
    | (.error err, tr) => (err, tr, ⟨false, false⟩)
    | (.ok r, tr) =>
      let tr := tr ++ [.nativeMkdir]
      if e.mkdirErr ≠ 0 then (e.mkdirErr, tr, ⟨false, false⟩)
      else
        let st : DirSt := ⟨true, false⟩
        if r.wh.isSome ∧ e.diropqCreateErr ≠ 0 then
          let rd := mkdirRevertDir e e.diropqCreateErr st
          (rd.1, tr ++ [.diropqCreate] ++ rd.2.1, rd.2.2)
        else
          let diropq := r.wh.isSome
          let st : DirSt := { st with opaqueExists := diropq }
          let tr := if diropq then tr ++ [.diropqCreate] else tr
          let ep := epilog e.ep r.wh.isSome
          let tr := tr ++ ep.2
          if ep.1 = 0 then (0, tr, st)
          else
            let ro : Int × List Event × DirSt :=
              if diropq then
                if e.diropqRemoveErr ≠ 0 then
                  (-eioerr, [.diropqRemove], st)
                else
                  (ep.1, [.diropqRemove], { st with opaqueExists := false })
              else (ep.1, [], st)
            let rd := mkdirRevertDir e ro.1 ro.2.2
            (rd.1, tr ++ ro.2.1 ++ rd.2.1, rd.2.2)

/-- Merged-view dentry state aufs_tmpfile leaves behind: the attached
branch dentry (au_set_h_dptr), di_btop and di_bbot, and whether the
parent timestamps were propagated (au_cpup_attr_timesizes ran). -/
structure TmpSt where
  hdptr : Option Int
  dbtop : Int
  dbbot : Int
  timesPropagated : Bool
deriving DecidableEq, Repr

/-- Environment of aufs_tmpfile: si_read_lock, au_di_init, whether the
found parent alias still carries the locked dir inode, au_digen_test,
au_wr_dir, whether the branch fs has an i_op tmpfile method,
vfsub_mnt_want_write, vfs_tmpfile, au_new_inode and the au_ibtop value
of the parent dir inode. -/
structure TmpfileEnv where
  siLockErr : Int
  diInitErr : Int
  parentMatches : Bool
  digenErr : Int
  wrDirRes : Int
  tmpfileSupported : Bool
  mntWriteErr : Int
  vfsTmpfileErr : Int
  newInodeErr : Int
  ibtopDir : Int
deriving DecidableEq, Repr

/--
aufs_tmpfile: locking and dinfo setup, branch resolution via au_wr_dir,
the -EOPNOTSUPP rejection when the branch lacks a tmpfile operation,
vfs_tmpfile, attachment of the branch dentry at the resolved branch,
au_new_inode; on its failure the attachment is undone (h_dptr cleared,
btop and bbot reset to -1); on success d_tmpfile runs and the parent
timestamps are propagated only when au_ibtop of the dir equals the
resolved branch.  No whiteout call appears anywhere.
-/
def aufs_tmpfile (e : TmpfileEnv) : Int × TmpSt × List Event :=
  let st0 : TmpSt := ⟨none, 0, 0, false⟩
  if e.siLockErr ≠ 0 then (e.siLockErr, st0, [])
  else if e.diInitErr ≠ 0 then (e.diInitErr, st0, [])
  else if ¬ e.parentMatches then (-ebusy, st0, [])
  else if e.digenErr ≠ 0 then (e.digenErr, st0, [])
  else if e.wrDirRes < 0 then (e.wrDirRes, st0, [.branchSelect])
  else if ¬ e.tmpfileSupported then (-eopnotsupp, st0, [.branchSelect])
  else if e.mntWriteErr ≠ 0 then (e.mntWriteErr, st0, [.branchSelect])
  else if e.vfsTmpfileErr ≠ 0 then
    (e.vfsTmpfileErr, st0, [.branchSelect, .vfsTmpfile])
  else
    let bindex := e.wrDirRes
    let st : TmpSt := ⟨some bindex, bindex, bindex, false⟩
    if e.newInodeErr ≠ 0 then
      (e.newInodeErr, ⟨none, -1, -1, false⟩,
       [.branchSelect, .vfsTmpfile, .newInode])
    else if e.ibtopDir = bindex then
      (0, { st with timesPropagated := true },
       [.branchSelect, .vfsTmpfile, .newInode, .cpupTimes])
    else
      (0, st, [.branchSelect, .vfsTmpfile, .newInode])

/- ------------------------------------------------------------------ -/
/- helper lemmas                                                      -/
/- ------------------------------------------------------------------ -/

lemma contains_eq_false_of_not_mem {l : List Nat} {a : Nat} (h : a ∉ l) :
    l.contains a = false := by
  by_contra hc
  exact h (List.elem_iff.mp (by simpa using hc))

lemma enterSeq_busy (ps : List Nat) (s : PlinkSt)
    (hp : s.plinkEnabled = true) (h : s.maintPid ≠ 0) :
    enterSeq ps s = (s, ps.map fun _ => -ebusy) := by
  induction ps with
  | nil => simp [enterSeq]
  | cons p rest ih => simp [enterSeq, au_plink_maint_enter, hp, h, ih]

/- ------------------------------------------------------------------ -/
/- claim theorems: pseudo-link table and maintenance gate             -/
/- ------------------------------------------------------------------ -/

/-- C3: au_plink_append is idempotent: starting from a state in which the
inode is absent from the table and no table reference to it is held,
appending it twice leaves exactly one table entry and exactly one held
reference for it, the second call returns the state of the first call
unchanged, and the locked check-and-insert section never inserts into a
bucket that already contains the inode. -/
theorem plink_append_idempotent (s : PlinkSt) (i : Nat) (t : List Nat)
    (htab : s.table.count i = 0) (href : s.refs.count i = 0)
    (hti : i ∈ t) :
    (au_plink_append 0 i (au_plink_append 0 i s)).table.count i = 1
    ∧ (au_plink_append 0 i (au_plink_append 0 i s)).refs.count i = 1
    ∧ au_plink_append 0 i (au_plink_append 0 i s) = au_plink_append 0 i s
    ∧ plinkCheckInsert t i = (t, true) := by
  have hmem : i ∉ s.table := List.count_eq_zero.mp htab
  have h1 : au_plink_append 0 i s
      = { s with table := i :: s.table, refs := i :: s.refs,
                 chainWarns := if aufsPlinkWarn < s.table.length + 1
                               then s.chainWarns + 1 else s.chainWarns } := by
    simp [au_plink_append, au_plink_test, plinkCheckInsert, hmem]
    split <;> rfl
  have h2 : au_plink_append 0 i (au_plink_append 0 i s)
      = au_plink_append 0 i s := by
    rw [h1]
    simp [au_plink_append, au_plink_test]
  refine ⟨?_, ?_, h2, by simp [plinkCheckInsert, hti]⟩
  · rw [h2, h1]
    simp [List.count_cons_self, htab]
  · rw [h2, h1]
    simp [List.count_cons_self, href]

/-- C3 witness: concrete evaluation of plink_append_idempotent on an
empty table with inode 7. -/
theorem plink_append_idempotent_witness :
    ((⟨true, 0, [], [], [], 0, 0⟩ : PlinkSt).table.count 7 = 0)
    ∧ ((⟨true, 0, [], [], [], 0, 0⟩ : PlinkSt).refs.count 7 = 0)
    ∧ (7 ∈ [7])
    ∧ ((au_plink_append 0 7 (au_plink_append 0 7
          (⟨true, 0, [], [], [], 0, 0⟩ : PlinkSt))).table.count 7 = 1
       ∧ (au_plink_append 0 7 (au_plink_append 0 7
            (⟨true, 0, [], [], [], 0, 0⟩ : PlinkSt))).refs.count 7 = 1
       ∧ au_plink_append 0 7 (au_plink_append 0 7
            (⟨true, 0, [], [], [], 0, 0⟩ : PlinkSt))
          = au_plink_append 0 7 (⟨true, 0, [], [], [], 0, 0⟩ : PlinkSt)
       ∧ plinkCheckInsert [7] 7 = ([7], true)) :=
  ⟨by decide, by decide, by decide,
   plink_append_idempotent ⟨true, 0, [], [], [], 0, 0⟩ 7 [7]
     (by decide) (by decide) (by decide)⟩

/-- C8: when the link-farm materialization (whplink) fails after the
entry was inserted, au_plink_append removes the entry again, releases
the reference it took, and bumps the damaged-pseudo-link warning count;
the table and reference multisets end exactly as they started, and the
function (whose C return type is void) surfaces no error. -/
theorem plink_append_whplink_failure (s : PlinkSt) (i : Nat) (whErr : Int)
    (htab : s.table.count i = 0) (hw : whErr ≠ 0) :
    (au_plink_append whErr i s).table = s.table
    ∧ (au_plink_append whErr i s).refs = s.refs
    ∧ (au_plink_append whErr i s).damagedWarns = s.damagedWarns + 1 := by
  have hmem : i ∉ s.table := List.count_eq_zero.mp htab
  simp [au_plink_append, au_plink_test, plinkCheckInsert, hmem, hw,
        List.erase_cons_head]
  split <;> simp [List.erase_cons_head]

/-- C8 witness: concrete evaluation with a failing whplink result. -/
theorem plink_append_whplink_failure_witness :
    ((⟨true, 0, [3], [3], [], 0, 0⟩ : PlinkSt).table.count 7 = 0)
    ∧ ((-enospc : Int) ≠ 0)
    ∧ ((au_plink_append (-enospc) 7
          (⟨true, 0, [3], [3], [], 0, 0⟩ : PlinkSt)).table = [3]
       ∧ (au_plink_append (-enospc) 7
            (⟨true, 0, [3], [3], [], 0, 0⟩ : PlinkSt)).refs = [3]
       ∧ (au_plink_append (-enospc) 7
            (⟨true, 0, [3], [3], [], 0, 0⟩ : PlinkSt)).damagedWarns = 0 + 1) :=
  ⟨by decide, by decide,
   plink_append_whplink_failure ⟨true, 0, [3], [3], [], 0, 0⟩ 7 (-enospc)
     (by decide) (by decide)⟩

/-- C4: with the PLINK option enabled and the gate free, a sequence of
enter calls lets exactly the first caller in and records it as owner
while every later caller gets -EBUSY, and leave clears the ownership and
wakes the whole wait queue. -/
theorem maint_gate_single_owner (s : PlinkSt) (p : Nat) (ps : List Nat)
    (hp : s.plinkEnabled = true) (h0 : s.maintPid = 0) (hpz : p ≠ 0) :
    (enterSeq (p :: ps) s).2 = 0 :: ps.map (fun _ => -ebusy)
    ∧ (enterSeq (p :: ps) s).1.maintPid = p
    ∧ (au_plink_maint_leave (enterSeq (p :: ps) s).1).1.maintPid = 0
    ∧ (au_plink_maint_leave (enterSeq (p :: ps) s).1).2
        = (enterSeq (p :: ps) s).1.waiters := by
  have h1 : au_plink_maint_enter p s = ({ s with maintPid := p }, 0) := by
    simp [au_plink_maint_enter, hp, h0]
  have h2 : enterSeq ps { s with maintPid := p }
      = ({ s with maintPid := p }, ps.map fun _ => -ebusy) :=
    enterSeq_busy ps _ (by simp [hp]) (by simp [hpz])
  simp [enterSeq, h1, h2, au_plink_maint_leave]

/-- C4 witness: three distinct callers, pids 10, 11 and 12. -/
theorem maint_gate_single_owner_witness :
    ((⟨true, 0, [], [], [20, 21], 0, 0⟩ : PlinkSt).plinkEnabled = true)
    ∧ ((⟨true, 0, [], [], [20, 21], 0, 0⟩ : PlinkSt).maintPid = 0)
    ∧ ((10 : Nat) ≠ 0)
    ∧ ((enterSeq [10, 11, 12] (⟨true, 0, [], [], [20, 21], 0, 0⟩ : PlinkSt)).2
          = 0 :: [11, 12].map (fun _ => -ebusy)
       ∧ (enterSeq [10, 11, 12]
            (⟨true, 0, [], [], [20, 21], 0, 0⟩ : PlinkSt)).1.maintPid = 10
       ∧ (au_plink_maint_leave (enterSeq [10, 11, 12]
            (⟨true, 0, [], [], [20, 21], 0, 0⟩ : PlinkSt)).1).1.maintPid = 0
       ∧ (au_plink_maint_leave (enterSeq [10, 11, 12]
            (⟨true, 0, [], [], [20, 21], 0, 0⟩ : PlinkSt)).1).2
          = (enterSeq [10, 11, 12]
              (⟨true, 0, [], [], [20, 21], 0, 0⟩ : PlinkSt)).1.waiters) :=
  ⟨by decide, by decide, by decide,
   maint_gate_single_owner ⟨true, 0, [], [], [20, 21], 0, 0⟩ 10 [11, 12]
     (by decide) (by decide) (by decide)⟩

/-- C5: with PLINK enabled, the fast-fail check (NOPLM set, NOPLMW
clear) reports busy exactly when the gate is held by a pid that is
neither zero, nor the caller, nor an ancestor of the caller; whenever
the recorded owner is the caller or one of its ancestors the check
succeeds at once under any flag combination; and no mode other than
fast-fail ever reports busy. -/
theorem maint_check_fastfail (s : PlinkSt) (cp : Nat) (anc : List Nat)
    (fl : MaintFlags) (hp : s.plinkEnabled = true) :
    (au_plink_maint s cp anc ⟨true, false⟩ = .busy
      ↔ s.maintPid ≠ 0 ∧ s.maintPid ≠ cp ∧ s.maintPid ∉ anc)
    ∧ (s.maintPid = cp ∨ s.maintPid ∈ anc →
        au_plink_maint s cp anc fl = .ok)
    ∧ (fl.noplm = false → au_plink_maint s cp anc fl ≠ .busy)
    ∧ (fl.noplmw = true → au_plink_maint s cp anc fl ≠ .busy) := by
  refine ⟨⟨?_, ?_⟩, ?_, ?_, ?_⟩
  · intro hbusy
    by_cases h0 : s.maintPid = 0 ∨ s.maintPid = cp
    · simp [au_plink_maint, hp, h0] at hbusy
    · by_cases ha : s.maintPid ∈ anc
      · simp [au_plink_maint, hp, h0, ha] at hbusy
      · push_neg at h0
        exact ⟨h0.1, h0.2, ha⟩
  · rintro ⟨h1, h2, h3⟩
    simp [au_plink_maint, hp, h1, h2, h3]
  · rintro (h | h)
    · simp [au_plink_maint, hp, h]
    · by_cases h0 : s.maintPid = 0 ∨ s.maintPid = cp
      · simp [au_plink_maint, hp, h0]
      · simp [au_plink_maint, hp, h0, h]
  · intro hn
    simp only [au_plink_maint]
    split_ifs <;> simp_all
  · intro hn
    simp only [au_plink_maint]
    split_ifs <;> simp_all

/-- C5 witness: owner pid 5 is an ancestor of caller pid 9, so both
modes succeed; the busy characterization is evaluated as well. -/
theorem maint_check_fastfail_witness :
    ((⟨true, 5, [], [], [], 0, 0⟩ : PlinkSt).plinkEnabled = true)
    ∧ ((au_plink_maint (⟨true, 5, [], [], [], 0, 0⟩ : PlinkSt) 9 [4, 5]
          ⟨true, false⟩ = .busy
        ↔ (⟨true, 5, [], [], [], 0, 0⟩ : PlinkSt).maintPid ≠ 0
          ∧ (⟨true, 5, [], [], [], 0, 0⟩ : PlinkSt).maintPid ≠ 9
          ∧ (⟨true, 5, [], [], [], 0, 0⟩ : PlinkSt).maintPid ∉ [4, 5])
       ∧ ((⟨true, 5, [], [], [], 0, 0⟩ : PlinkSt).maintPid = 9
            ∨ (⟨true, 5, [], [], [], 0, 0⟩ : PlinkSt).maintPid ∈ [4, 5] →
           au_plink_maint (⟨true, 5, [], [], [], 0, 0⟩ : PlinkSt) 9 [4, 5]
             ⟨false, true⟩ = .ok)
       ∧ (MaintFlags.noplm ⟨false, true⟩ = false →
           au_plink_maint (⟨true, 5, [], [], [], 0, 0⟩ : PlinkSt) 9 [4, 5]
             ⟨false, true⟩ ≠ .busy)
       ∧ (MaintFlags.noplmw ⟨false, true⟩ = true →
           au_plink_maint (⟨true, 5, [], [], [], 0, 0⟩ : PlinkSt) 9 [4, 5]
             ⟨false, true⟩ ≠ .busy)) :=
  ⟨by decide,
   maint_check_fastfail ⟨true, 5, [], [], [], 0, 0⟩ 9 [4, 5] ⟨false, true⟩
     (by decide)⟩

/-- C10: with the PLINK mount option disabled, au_plink_maint reports
success immediately for every caller, ancestry and flag combination, and
au_plink_maint_enter returns success while leaving the state (in
particular the recorded owner) untouched. -/
theorem plink_disabled_no_gate (s : PlinkSt) (cp p : Nat) (anc : List Nat)
    (fl : MaintFlags) (h : s.plinkEnabled = false) :
    au_plink_maint s cp anc fl = .ok
    ∧ au_plink_maint_enter p s = (s, 0) := by
  simp [au_plink_maint, au_plink_maint_enter, h]

/-- C10 witness: a disabled-PLINK state with another maintainer pid
recorded; the gate still reports unheld and enter records nothing. -/
theorem plink_disabled_no_gate_witness :
    ((⟨false, 5, [], [], [], 0, 0⟩ : PlinkSt).plinkEnabled = false)
    ∧ (au_plink_maint (⟨false, 5, [], [], [], 0, 0⟩ : PlinkSt) 9 [4]
         ⟨true, false⟩ = .ok
       ∧ au_plink_maint_enter 9 (⟨false, 5, [], [], [], 0, 0⟩ : PlinkSt)
          = (⟨false, 5, [], [], [], 0, 0⟩, 0)) :=
  ⟨by decide,
   plink_disabled_no_gate ⟨false, 5, [], [], [], 0, 0⟩ 9 9 [4] ⟨true, false⟩
     (by decide)⟩

/- ------------------------------------------------------------------ -/
/- claim theorems: entry-creation transactions                        -/
/- ------------------------------------------------------------------ -/

/-- C6: once lock_hdir_lkup_wh has resolved the target branch and passed
its validation, the whiteout lookup runs exactly when the cached whiteout
position au_dbwh equals the resolved branch bcpup (a whiteout at that
very position is what would shadow the new entry there); whenever the
two differ, in particular when the whiteout position lies strictly below
the resolved top, the lookup is skipped, no whiteout handle is produced,
and the call succeeds with a null whiteout dentry. -/
theorem lkup_wh_exactly_at_dbwh (e : LkupEnv)
    (h1 : 0 ≤ e.wrDirRes) (h2 : e.pinErr = 0) (h3 : lkupCheckErr e = 0) :
    (Event.whLookup ∈ (lock_hdir_lkup_wh e).2 ↔ e.wrDirRes = e.dbwh)
    ∧ (e.wrDirRes ≠ e.dbwh →
        lock_hdir_lkup_wh e
          = (.ok ⟨none, e.wrDirRes⟩, [.branchSelect, .dtimeStore]))
    ∧ (e.wrDirRes < e.dbwh →
        lock_hdir_lkup_wh e
          = (.ok ⟨none, e.wrDirRes⟩, [.branchSelect, .dtimeStore])) := by
  have hn : ¬ e.wrDirRes < 0 := not_lt.mpr h1
  refine ⟨?_, ?_, ?_⟩
  · by_cases he : e.wrDirRes = e.dbwh
    · have hn2 : ¬ e.dbwh < 0 := he ▸ hn
      by_cases hw : e.whLkupErr = 0 <;>
        simp [lock_hdir_lkup_wh, hn, hn2, h2, h3, he, hw]
    · simp [lock_hdir_lkup_wh, hn, h2, h3, he]
  · intro hne
    simp [lock_hdir_lkup_wh, hn, h2, h3, hne]
  · intro hlt
    simp [lock_hdir_lkup_wh, hn, h2, h3, ne_of_lt hlt]

/-- C6 witness: branch 1 resolved while the whiteout position is 2
(strictly below), so the lookup is skipped and no handle produced. -/
theorem lkup_wh_exactly_at_dbwh_witness :
    ((0 : Int) ≤ 1) ∧ ((0 : Int) = 0)
    ∧ (lkupCheckErr ⟨1, 0, false, false, ⟨3, true, false, 0, false, false,
         true⟩, 2, 0⟩ = 0)
    ∧ ((Event.whLookup ∈ (lock_hdir_lkup_wh ⟨1, 0, false, false,
          ⟨3, true, false, 0, false, false, true⟩, 2, 0⟩).2 ↔ (1 : Int) = 2)
       ∧ ((1 : Int) ≠ 2 →
           lock_hdir_lkup_wh ⟨1, 0, false, false,
             ⟨3, true, false, 0, false, false, true⟩, 2, 0⟩
             = (.ok ⟨none, 1⟩, [.branchSelect, .dtimeStore]))
       ∧ ((1 : Int) < 2 →
           lock_hdir_lkup_wh ⟨1, 0, false, false,
             ⟨3, true, false, 0, false, false, true⟩, 2, 0⟩
             = (.ok ⟨none, 1⟩, [.branchSelect, .dtimeStore]))) :=
  ⟨by decide, by decide, by decide,
   lkup_wh_exactly_at_dbwh ⟨1, 0, false, false,
     ⟨3, true, false, 0, false, false, true⟩, 2, 0⟩
     (by decide) (by decide) (by decide)⟩

/-- C7 counterexample: a dentry can be unhashed and positive at once (an
open-but-unlinked file); au_d_may_add computes -ENOENT first and then
overwrites it with -EEXIST, so the call returns AlreadyExists where the
claim promises NotFound for every unhashed entry. -/
theorem add_rejects_counterexample :
    au_d_may_add true true = -eexist
    ∧ add_simple ⟨true, 0, true, true,
        ⟨1, 0, false, false, ⟨3, true, false, 0, false, false, true⟩, 1, 0⟩,
        0, ⟨0, 0, true⟩, 0⟩ = (-eexist, [])
    ∧ (-eexist : Int) ≠ -enoent := by decide

/-- C7 (amended): a positive target makes every creation call return
-EEXIST, even when the dentry is also unhashed; an unhashed negative
target returns -ENOENT; in both cases the empty event list shows the
rejection happens before au_wr_dir branch selection and before any
native creation call, and aufs_mkdir leaves no native directory or
opaque marker behind. -/
theorem add_rejects_before_side_effects (es : SimpleEnv) (em : MkdirEnv)
    (hk : es.kmallocOk = true) (hr : es.readLockErr = 0)
    (hmk : em.kmallocOk = true) (hmr : em.readLockErr = 0) :
    (es.dPositive = true → add_simple es = (-eexist, []))
    ∧ (es.dUnhashed = true → es.dPositive = false →
        add_simple es = (-enoent, []))
    ∧ (em.dPositive = true → aufs_mkdir em = (-eexist, [], ⟨false, false⟩))
    ∧ (em.dUnhashed = true → em.dPositive = false →
        aufs_mkdir em = (-enoent, [], ⟨false, false⟩)) := by
  refine ⟨?_, ?_, ?_, ?_⟩
  · intro hp
    simp [add_simple, au_d_may_add, hk, hr, hp, eexist]
  · intro hu hp
    simp [add_simple, au_d_may_add, hk, hr, hu, hp, enoent]
  · intro hp
    simp [aufs_mkdir, au_d_may_add, hmk, hmr, hp, eexist]
  · intro hu hp
    simp [aufs_mkdir, au_d_may_add, hmk, hmr, hu, hp, enoent]

/-- C7 witness: concrete environments, one positive target for
add_simple and one unhashed negative target for aufs_mkdir. -/
theorem add_rejects_before_side_effects_witness :
    (true = true) ∧ ((0 : Int) = 0) ∧ (true = true) ∧ ((0 : Int) = 0)
    ∧ ((true = true → add_simple ⟨true, 0, false, true,
          ⟨1, 0, false, false, ⟨3, true, false, 0, false, false, true⟩, 1, 0⟩,
          0, ⟨0, 0, true⟩, 0⟩ = (-eexist, []))
       ∧ (false = true → true = false → add_simple ⟨true, 0, false, true,
            ⟨1, 0, false, false, ⟨3, true, false, 0, false, false, true⟩,
             1, 0⟩, 0, ⟨0, 0, true⟩, 0⟩ = (-enoent, []))
       ∧ (false = true → aufs_mkdir ⟨true, 0, true, false,
            ⟨1, 0, false, false, ⟨3, true, false, 0, false, true, true⟩,
             1, 0⟩, 0, 0, ⟨0, 0, true⟩, 0, 0⟩ = (-eexist, [], ⟨false, false⟩))
       ∧ (true = true → false = false → aufs_mkdir ⟨true, 0, true, false,
            ⟨1, 0, false, false, ⟨3, true, false, 0, false, true, true⟩,
             1, 0⟩, 0, 0, ⟨0, 0, true⟩, 0, 0⟩
           = (-enoent, [], ⟨false, false⟩))) :=
  ⟨rfl, rfl, rfl, rfl,
   add_rejects_before_side_effects
     ⟨true, 0, false, true,
       ⟨1, 0, false, false, ⟨3, true, false, 0, false, false, true⟩, 1, 0⟩,
       0, ⟨0, 0, true⟩, 0⟩
     ⟨true, 0, true, false,
       ⟨1, 0, false, false, ⟨3, true, false, 0, false, true, true⟩, 1, 0⟩,
       0, 0, ⟨0, 0, true⟩, 0, 0⟩
     rfl rfl rfl rfl⟩

set_option maxHeartbeats 2000000 in
/-- C9: once aufs_tmpfile has resolved the writable branch, a branch
whose native filesystem lacks a tmpfile operation makes the call fail
with -EOPNOTSUPP; on full success the branch dentry is attached at the
resolved branch with no visible name linked (the trace holds no native
create, link, mkdir or instantiate event) and the parent timestamps are
propagated exactly when au_ibtop of the dir equals the resolved branch;
when au_new_inode fails after attachment, the branch dentry is detached
and di_btop and di_bbot are cleared to -1; and no run of aufs_tmpfile,
whatever its environment, ever performs a whiteout lookup, unlink or
recreation. -/
theorem tmpfile_props (e e2 : TmpfileEnv)
    (h1 : e.siLockErr = 0) (h2 : e.diInitErr = 0)
    (h3 : e.parentMatches = true) (h4 : e.digenErr = 0)
    (h5 : 0 ≤ e.wrDirRes) :
    (e.tmpfileSupported = false →
       aufs_tmpfile e = (-eopnotsupp, ⟨none, 0, 0, false⟩, [.branchSelect]))
    ∧ (e.tmpfileSupported = true → e.mntWriteErr = 0 → e.vfsTmpfileErr = 0 →
        e.newInodeErr = 0 →
        (aufs_tmpfile e).1 = 0
        ∧ (aufs_tmpfile e).2.1.hdptr = some e.wrDirRes
        ∧ (aufs_tmpfile e).2.1.dbtop = e.wrDirRes
        ∧ ((aufs_tmpfile e).2.1.timesPropagated = true
            ↔ e.ibtopDir = e.wrDirRes)
        ∧ Event.nativeCreate ∉ (aufs_tmpfile e).2.2
        ∧ Event.nativeMkdir ∉ (aufs_tmpfile e).2.2
        ∧ Event.instantiate ∉ (aufs_tmpfile e).2.2)
    ∧ (e.tmpfileSupported = true → e.mntWriteErr = 0 → e.vfsTmpfileErr = 0 →
        e.newInodeErr ≠ 0 →
        aufs_tmpfile e = (e.newInodeErr, ⟨none, -1, -1, false⟩,
          [.branchSelect, .vfsTmpfile, .newInode]))
    ∧ (Event.whLookup ∉ (aufs_tmpfile e2).2.2
       ∧ Event.whUnlink ∉ (aufs_tmpfile e2).2.2
       ∧ Event.whRecreate ∉ (aufs_tmpfile e2).2.2) := by
  have hn : ¬ e.wrDirRes < 0 := not_lt.mpr h5
  refine ⟨?_, ?_, ?_, ?_⟩
  · intro hs
    simp [aufs_tmpfile, h1, h2, h3, h4, hn, hs]
  · intro hs hm hv hni
    by_cases hi : e.ibtopDir = e.wrDirRes <;>
      simp [aufs_tmpfile, h1, h2, h3, h4, hn, hs, hm, hv, hni, hi]
  · intro hs hm hv hni
    simp [aufs_tmpfile, h1, h2, h3, h4, hn, hs, hm, hv, hni]
  · simp only [aufs_tmpfile]
    split_ifs <;> simp

/-- C9 witness: a concrete run on branch 1 with every step succeeding
and au_ibtop equal to the resolved branch. -/
theorem tmpfile_props_witness :
    ((0 : Int) = 0) ∧ ((0 : Int) = 0) ∧ (true = true) ∧ ((0 : Int) = 0)
    ∧ ((0 : Int) ≤ 1)
    ∧ ((TmpfileEnv.tmpfileSupported ⟨0, 0, true, 0, 1, true, 0, 0, 0, 1⟩
          = false →
         aufs_tmpfile ⟨0, 0, true, 0, 1, true, 0, 0, 0, 1⟩
           = (-eopnotsupp, ⟨none, 0, 0, false⟩, [.branchSelect]))
       ∧ (TmpfileEnv.tmpfileSupported ⟨0, 0, true, 0, 1, true, 0, 0, 0, 1⟩
            = true → (0 : Int) = 0 → (0 : Int) = 0 → (0 : Int) = 0 →
          (aufs_tmpfile ⟨0, 0, true, 0, 1, true, 0, 0, 0, 1⟩).1 = 0
          ∧ (aufs_tmpfile ⟨0, 0, true, 0, 1, true, 0, 0, 0, 1⟩).2.1.hdptr
              = some 1
          ∧ (aufs_tmpfile ⟨0, 0, true, 0, 1, true, 0, 0, 0, 1⟩).2.1.dbtop = 1
          ∧ ((aufs_tmpfile
                ⟨0, 0, true, 0, 1, true, 0, 0, 0, 1⟩).2.1.timesPropagated
                = true ↔ (1 : Int) = 1)
          ∧ Event.nativeCreate
              ∉ (aufs_tmpfile ⟨0, 0, true, 0, 1, true, 0, 0, 0, 1⟩).2.2
          ∧ Event.nativeMkdir
              ∉ (aufs_tmpfile ⟨0, 0, true, 0, 1, true, 0, 0, 0, 1⟩).2.2
          ∧ Event.instantiate
              ∉ (aufs_tmpfile ⟨0, 0, true, 0, 1, true, 0, 0, 0, 1⟩).2.2)
       ∧ (TmpfileEnv.tmpfileSupported ⟨0, 0, true, 0, 1, true, 0, 0, 0, 1⟩
            = true → (0 : Int) = 0 → (0 : Int) = 0 → (0 : Int) ≠ 0 →
          aufs_tmpfile ⟨0, 0, true, 0, 1, true, 0, 0, 0, 1⟩
            = (0, ⟨none, -1, -1, false⟩,
               [.branchSelect, .vfsTmpfile, .newInode]))
       ∧ (Event.whLookup
            ∉ (aufs_tmpfile ⟨0, 0, true, 0, 2, false, 0, 0, 0, 1⟩).2.2
          ∧ Event.whUnlink
              ∉ (aufs_tmpfile ⟨0, 0, true, 0, 2, false, 0, 0, 0, 1⟩).2.2
          ∧ Event.whRecreate
              ∉ (aufs_tmpfile ⟨0, 0, true, 0, 2, false, 0, 0, 0, 1⟩).2.2)) :=
  ⟨rfl, rfl, rfl, rfl, by decide,
   tmpfile_props ⟨0, 0, true, 0, 1, true, 0, 0, 0, 1⟩
     ⟨0, 0, true, 0, 2, false, 0, 0, 0, 1⟩
     rfl rfl rfl rfl (by decide)⟩

/-- Premises under which lock_hdir_lkup_wh succeeds and returns a
whiteout dentry: branch resolved, pin and validation fine, the whiteout
position equal to the resolved branch, and the whiteout lookup fine. -/
def lkupWhOk (lw : LkupEnv) : Prop :=
  0 ≤ lw.wrDirRes ∧ lw.pinErr = 0 ∧ lkupCheckErr lw = 0
  ∧ lw.dbwh = lw.wrDirRes ∧ lw.whLkupErr = 0

instance (lw : LkupEnv) : Decidable (lkupWhOk lw) := by
  unfold lkupWhOk
  infer_instance

/-- Premises under which add_simple removes the whiteout, creates the
native entry, and then fails in au_new_inode. -/
def simpleWhFail (es : SimpleEnv) : Prop :=
  es.kmallocOk = true ∧ es.readLockErr = 0 ∧ es.dUnhashed = false
  ∧ es.dPositive = false ∧ lkupWhOk es.lw ∧ es.createErr = 0
  ∧ es.ep.whUnlinkErr = 0 ∧ es.ep.newInodeErr ≠ 0

instance (es : SimpleEnv) : Decidable (simpleWhFail es) := by
  unfold simpleWhFail
  infer_instance

/-- Premises under which aufs_mkdir removes the whiteout, creates the
native directory and its opaque marker, and then fails in au_new_inode. -/
def mkdirWhFail (em : MkdirEnv) : Prop :=
  em.kmallocOk = true ∧ em.readLockErr = 0 ∧ em.dUnhashed = false
  ∧ em.dPositive = false ∧ lkupWhOk em.lw ∧ em.mkdirErr = 0
  ∧ em.diropqCreateErr = 0 ∧ em.ep.whUnlinkErr = 0
  ∧ em.ep.newInodeErr ≠ 0

instance (em : MkdirEnv) : Decidable (mkdirWhFail em) := by
  unfold mkdirWhFail
  infer_instance

lemma lkup_wh_ok_eval (lw : LkupEnv) (h : lkupWhOk lw) :
    lock_hdir_lkup_wh lw
      = (.ok ⟨some (), lw.wrDirRes⟩,
         [.branchSelect, .dtimeStore, .whLookup]) := by
  obtain ⟨h1, h2, h3, h4, h5⟩ := h
  have hn : ¬ lw.wrDirRes < 0 := not_lt.mpr h1
  simp [lock_hdir_lkup_wh, hn, h2, h3, h4, h5]

lemma epilog_whfail_eval (ep : EpilogEnv) (hwu : ep.whUnlinkErr = 0)
    (hni : ep.newInodeErr ≠ 0) :
    epilog ep true
      = (if ep.whCreateOk = true then ep.newInodeErr else -eioerr,
         [.whUnlink, .newInode, .whRecreate]) := by
  simp [epilog, hwu, hni]
  split <;> rfl

lemma epilog_whfail_ne_zero (ep : EpilogEnv) (hni : ep.newInodeErr ≠ 0) :
    (if ep.whCreateOk = true then ep.newInodeErr else -eioerr) ≠ 0 := by
  split
  · exact hni
  · decide

lemma add_simple_whfail_eval (es : SimpleEnv) (h : simpleWhFail es) :
    add_simple es
      = (if es.unlinkRevertErr ≠ 0 then -eioerr
         else if es.ep.whCreateOk = true then es.ep.newInodeErr else -eioerr,
         [.branchSelect, .dtimeStore, .whLookup, .nativeCreate, .whUnlink,
          .newInode, .whRecreate, .unlinkRevert, .dtimeRevert]) := by
  obtain ⟨hk, hr, hu, hp, hl, hcre, hwu, hni⟩ := h
  have hlk := lkup_wh_ok_eval es.lw hl
  have hep := epilog_whfail_eval es.ep hwu hni
  have hepne := epilog_whfail_ne_zero es.ep hni
  simp [add_simple, hk, hr, hu, hp, au_d_may_add, hlk, hcre, hep, hepne]
  split_ifs <;> simp [hep]

lemma aufs_mkdir_whfail_trace (em : MkdirEnv) (h : mkdirWhFail em) :
    (aufs_mkdir em).2.1
      = [.branchSelect, .dtimeStore, .whLookup, .nativeMkdir, .diropqCreate,
         .whUnlink, .newInode, .whRecreate, .diropqRemove, .rmdirRevert,
         .dtimeRevert] := by
  obtain ⟨hk, hr, hu, hp, hl, hmk, hdo, hwu, hni⟩ := h
  have hlk := lkup_wh_ok_eval em.lw hl
  have hep := epilog_whfail_eval em.ep hwu hni
  have hepne := epilog_whfail_ne_zero em.ep hni
  simp [aufs_mkdir, hk, hr, hu, hp, au_d_may_add, hlk, hmk, hdo, hep,
        hepne, mkdirRevertDir]
  split_ifs <;> simp [hep]

lemma aufs_mkdir_whfail_res (em : MkdirEnv) (h : mkdirWhFail em) :
    (aufs_mkdir em).1
      = (if em.rmdirErr ≠ 0 then -eioerr
         else if em.diropqRemoveErr ≠ 0 then -eioerr
         else if em.ep.whCreateOk = true then em.ep.newInodeErr
         else -eioerr) := by
  obtain ⟨hk, hr, hu, hp, hl, hmk, hdo, hwu, hni⟩ := h
  have hlk := lkup_wh_ok_eval em.lw hl
  have hep := epilog_whfail_eval em.ep hwu hni
  have hepne := epilog_whfail_ne_zero em.ep hni
  simp [aufs_mkdir, hk, hr, hu, hp, au_d_may_add, hlk, hmk, hdo, hep,
        hepne, mkdirRevertDir]
  split_ifs <;> simp [hep]

/-- C1 counterexample: native create succeeds, the whiteout is removed,
au_new_inode fails with -ENOMEM and the whiteout recreation succeeds
(whCreateOk true), yet the vfsub_unlink revert fails, so add_simple
returns -EIO instead of the original -ENOMEM; the claim, which promises
the original error whenever the whiteout recreation succeeds, is
therefore false as stated. -/
theorem wh_recreate_counterexample :
    (SimpleEnv.ep ⟨true, 0, false, false,
        ⟨1, 0, false, false, ⟨3, true, false, 0, false, false, true⟩, 1, 0⟩,
        0, ⟨0, -enomem, true⟩, -enospc⟩).whCreateOk = true
    ∧ Event.whRecreate ∈ (add_simple ⟨true, 0, false, false,
        ⟨1, 0, false, false, ⟨3, true, false, 0, false, false, true⟩, 1, 0⟩,
        0, ⟨0, -enomem, true⟩, -enospc⟩).2
    ∧ (add_simple ⟨true, 0, false, false,
        ⟨1, 0, false, false, ⟨3, true, false, 0, false, false, true⟩, 1, 0⟩,
        0, ⟨0, -enomem, true⟩, -enospc⟩).1 = -eioerr
    ∧ (-eioerr : Int) ≠ -enomem := by decide

/-- C1 (amended): whenever a creation transaction fails after the
whiteout was already removed, the whiteout recreation is attempted (the
whRecreate event is in every trace); if the recreation fails the call
returns -EIO regardless of the original error, whatever the remaining
rollback steps return; if the recreation succeeds, the original error is
returned provided the remaining rollback steps (the unlink of the
just-created entry, and for mkdir the opaque marker removal and the
rmdir) succeed as well, and any failure among those rollback steps
likewise escalates the result to -EIO. -/
theorem wh_recreate_on_failure (es : SimpleEnv) (em : MkdirEnv)
    (hs : simpleWhFail es) (hm : mkdirWhFail em) :
    Event.whRecreate ∈ (add_simple es).2
    ∧ (es.ep.whCreateOk = false → (add_simple es).1 = -eioerr)
    ∧ (es.ep.whCreateOk = true → es.unlinkRevertErr = 0 →
        (add_simple es).1 = es.ep.newInodeErr)
    ∧ (es.ep.whCreateOk = true → es.unlinkRevertErr ≠ 0 →
        (add_simple es).1 = -eioerr)
    ∧ Event.whRecreate ∈ (aufs_mkdir em).2.1
    ∧ (em.ep.whCreateOk = false → (aufs_mkdir em).1 = -eioerr)
    ∧ (em.ep.whCreateOk = true → em.diropqRemoveErr = 0 → em.rmdirErr = 0 →
        (aufs_mkdir em).1 = em.ep.newInodeErr)
    ∧ (em.ep.whCreateOk = true →
        em.diropqRemoveErr ≠ 0 ∨ em.rmdirErr ≠ 0 →
        (aufs_mkdir em).1 = -eioerr) := by
  have hadd := add_simple_whfail_eval es hs
  have mtr := aufs_mkdir_whfail_trace em hm
  have mres := aufs_mkdir_whfail_res em hm
  refine ⟨?_, ?_, ?_, ?_, ?_, ?_, ?_, ?_⟩
  · rw [hadd]
    simp
  · intro hwc
    rw [hadd]
    split_ifs with h1 h2 <;> simp_all
  · intro hwc hur
    rw [hadd]
    simp [hur, hwc]
  · intro hwc hur
    rw [hadd]
    simp [hur]
  · rw [mtr]
    decide
  · intro hwc
    rw [mres]
    simp [hwc]
  · intro hwc hdr hrm
    rw [mres]
    simp [hwc, hdr, hrm]
  · intro hwc hor
    rw [mres]
    rcases hor with h | h <;> simp [h]

/-- Concrete add_simple environment for the C1 witness: whiteout present
at branch 1, au_new_inode fails with -ENOMEM, every rollback succeeds. -/
def esWhFail : SimpleEnv :=
  ⟨true, 0, false, false,
   ⟨1, 0, false, false, ⟨3, true, false, 0, false, false, true⟩, 1, 0⟩,
   0, ⟨0, -enomem, true⟩, 0⟩

/-- Concrete aufs_mkdir environment for the C1 witness, analogous. -/
def emWhFail : MkdirEnv :=
  ⟨true, 0, false, false,
   ⟨1, 0, false, false, ⟨3, true, false, 0, false, true, true⟩, 1, 0⟩,
   0, 0, ⟨0, -enomem, true⟩, 0, 0⟩

/-- C1 witness: concrete environments in which every rollback step
succeeds, evaluated for both add_simple and aufs_mkdir. -/
theorem wh_recreate_on_failure_witness :
    simpleWhFail esWhFail ∧ mkdirWhFail emWhFail
    ∧ (Event.whRecreate ∈ (add_simple esWhFail).2
       ∧ (esWhFail.ep.whCreateOk = false → (add_simple esWhFail).1 = -eioerr)
       ∧ (esWhFail.ep.whCreateOk = true → esWhFail.unlinkRevertErr = 0 →
           (add_simple esWhFail).1 = esWhFail.ep.newInodeErr)
       ∧ (esWhFail.ep.whCreateOk = true → esWhFail.unlinkRevertErr ≠ 0 →
           (add_simple esWhFail).1 = -eioerr)
       ∧ Event.whRecreate ∈ (aufs_mkdir emWhFail).2.1
       ∧ (emWhFail.ep.whCreateOk = false → (aufs_mkdir emWhFail).1 = -eioerr)
       ∧ (emWhFail.ep.whCreateOk = true → emWhFail.diropqRemoveErr = 0 →
           emWhFail.rmdirErr = 0 →
           (aufs_mkdir emWhFail).1 = emWhFail.ep.newInodeErr)
       ∧ (emWhFail.ep.whCreateOk = true →
           emWhFail.diropqRemoveErr ≠ 0 ∨ emWhFail.rmdirErr ≠ 0 →
           (aufs_mkdir emWhFail).1 = -eioerr)) :=
  ⟨by decide, by decide,
   wh_recreate_on_failure esWhFail emWhFail (by decide) (by decide)⟩

/-- Premises shared by every aufs_mkdir run that reaches and passes the
vfsub_mkdir call. -/
def mkdirPostOk (em : MkdirEnv) : Prop :=
  em.kmallocOk = true ∧ em.readLockErr = 0 ∧ em.dUnhashed = false
  ∧ em.dPositive = false ∧ em.mkdirErr = 0

instance (em : MkdirEnv) : Decidable (mkdirPostOk em) := by
  unfold mkdirPostOk
  infer_instance

/-- Premises under which lock_hdir_lkup_wh succeeds without producing a
whiteout dentry: the recorded whiteout position differs from the
resolved branch. -/
def lkupNoWhOk (lw : LkupEnv) : Prop :=
  0 ≤ lw.wrDirRes ∧ lw.pinErr = 0 ∧ lkupCheckErr lw = 0
  ∧ lw.dbwh ≠ lw.wrDirRes

instance (lw : LkupEnv) : Decidable (lkupNoWhOk lw) := by
  unfold lkupNoWhOk
  infer_instance

/-- Premises under which aufs_mkdir creates the directory and its opaque
marker and then fails unlinking the whiteout inside epilog. -/
def mkdirWhUnlinkFail (em : MkdirEnv) : Prop :=
  mkdirPostOk em ∧ lkupWhOk em.lw ∧ em.diropqCreateErr = 0
  ∧ em.ep.whUnlinkErr ≠ 0

instance (em : MkdirEnv) : Decidable (mkdirWhUnlinkFail em) := by
  unfold mkdirWhUnlinkFail
  infer_instance

/-- Premises under which aufs_mkdir runs with no whiteout at all,
creates the directory, and then fails in au_new_inode. -/
def mkdirNoWhFail (em : MkdirEnv) : Prop :=
  mkdirPostOk em ∧ lkupNoWhOk em.lw ∧ em.ep.newInodeErr ≠ 0

instance (em : MkdirEnv) : Decidable (mkdirNoWhFail em) := by
  unfold mkdirNoWhFail
  infer_instance

/-- Premises under which aufs_mkdir creates the directory and then fails
in au_diropq_create (no constraint on the unwind outcomes). -/
def mkdirOpqFail (em : MkdirEnv) : Prop :=
  mkdirPostOk em ∧ lkupWhOk em.lw ∧ em.diropqCreateErr ≠ 0

instance (em : MkdirEnv) : Decidable (mkdirOpqFail em) := by
  unfold mkdirOpqFail
  infer_instance

lemma lkup_nowh_ok_eval (lw : LkupEnv) (h : lkupNoWhOk lw) :
    lock_hdir_lkup_wh lw
      = (.ok ⟨none, lw.wrDirRes⟩, [.branchSelect, .dtimeStore]) := by
  obtain ⟨h1, h2, h3, h4⟩ := h
  have hn : ¬ lw.wrDirRes < 0 := not_lt.mpr h1
  simp [lock_hdir_lkup_wh, hn, h2, h3, Ne.symm h4]

lemma epilog_whunlink_eval (ep : EpilogEnv) (hwu : ep.whUnlinkErr ≠ 0) :
    epilog ep true = (ep.whUnlinkErr, [.whUnlink]) := by
  simp [epilog, hwu]

lemma epilog_nowh_fail_eval (ep : EpilogEnv) (hni : ep.newInodeErr ≠ 0) :
    epilog ep false = (ep.newInodeErr, [.newInode]) := by
  simp [epilog, hni]

lemma aufs_mkdir_whunlink_trace (em : MkdirEnv) (h : mkdirWhUnlinkFail em) :
    (aufs_mkdir em).2.1
      = [.branchSelect, .dtimeStore, .whLookup, .nativeMkdir, .diropqCreate,
         .whUnlink, .diropqRemove, .rmdirRevert, .dtimeRevert] := by
  obtain ⟨⟨hk, hr, hu, hp, hmk⟩, hl, hdo, hwu⟩ := h
  have hlk := lkup_wh_ok_eval em.lw hl
  have hep := epilog_whunlink_eval em.ep hwu
  simp [aufs_mkdir, hk, hr, hu, hp, au_d_may_add, hlk, hmk, hdo, hep, hwu,
        mkdirRevertDir]
  split_ifs <;> simp [hep]

lemma aufs_mkdir_whunlink_res (em : MkdirEnv) (h : mkdirWhUnlinkFail em) :
    (aufs_mkdir em).1
      = (if em.rmdirErr ≠ 0 then -eioerr
         else if em.diropqRemoveErr ≠ 0 then -eioerr
         else em.ep.whUnlinkErr) := by
  obtain ⟨⟨hk, hr, hu, hp, hmk⟩, hl, hdo, hwu⟩ := h
  have hlk := lkup_wh_ok_eval em.lw hl
  have hep := epilog_whunlink_eval em.ep hwu
  simp [aufs_mkdir, hk, hr, hu, hp, au_d_may_add, hlk, hmk, hdo, hep, hwu,
        mkdirRevertDir]
  split_ifs <;> simp [hep]

lemma aufs_mkdir_nowh_eval (em : MkdirEnv) (h : mkdirNoWhFail em) :
    aufs_mkdir em
      = if em.rmdirErr ≠ 0 then
          (-eioerr,
           [.branchSelect, .dtimeStore, .nativeMkdir, .newInode,
            .rmdirRevert, .dtimeRevert], ⟨true, false⟩)
        else
          (em.ep.newInodeErr,
           [.branchSelect, .dtimeStore, .nativeMkdir, .newInode,
            .rmdirRevert, .dtimeRevert], ⟨false, false⟩) := by
  obtain ⟨⟨hk, hr, hu, hp, hmk⟩, hl, hni⟩ := h
  have hlk := lkup_nowh_ok_eval em.lw hl
  have hep := epilog_nowh_fail_eval em.ep hni
  simp [aufs_mkdir, hk, hr, hu, hp, au_d_may_add, hlk, hmk, hep, hni,
        mkdirRevertDir]
  split_ifs <;> simp [hep]

lemma aufs_mkdir_diropq_fail_eval (em : MkdirEnv) (h : mkdirOpqFail em) :
    aufs_mkdir em
      = if em.rmdirErr ≠ 0 then
          (-eioerr,
           [.branchSelect, .dtimeStore, .whLookup, .nativeMkdir,
            .diropqCreate, .rmdirRevert, .dtimeRevert], ⟨true, false⟩)
        else
          (em.diropqCreateErr,
           [.branchSelect, .dtimeStore, .whLookup, .nativeMkdir,
            .diropqCreate, .rmdirRevert, .dtimeRevert], ⟨false, false⟩) := by
  obtain ⟨⟨hk, hr, hu, hp, hmk⟩, hl, hdo⟩ := h
  have hlk := lkup_wh_ok_eval em.lw hl
  simp [aufs_mkdir, hk, hr, hu, hp, au_d_may_add, hlk, hmk, hdo,
        mkdirRevertDir]
  split_ifs <;> simp

/-- C2: for every aufs_mkdir call in which vfsub_mkdir succeeded and a
later step failed, the unwind runs in reverse order and every remaining
unwind step runs whatever the outcomes of the earlier ones: with the
opaque marker set the trace ends diropqRemove, rmdirRevert, dtimeRevert,
both when au_new_inode failed (emA) and when the whiteout unlink failed
(emB); with no whiteout (emC) and when the opaque-marking step itself
failed (emD) the trace ends rmdirRevert, dtimeRevert; a failing
opaque-marker removal or a failing rmdir escalates the returned error to
-EIO in every family; and when the opaque-marking step failed and the
rmdir succeeds the final state holds no native directory and no opaque
marker. -/
theorem mkdir_unwind_full (emA emB emC emD : MkdirEnv)
    (hA : mkdirWhFail emA) (hB : mkdirWhUnlinkFail emB)
    (hC : mkdirNoWhFail emC) (hD : mkdirOpqFail emD) :
    (aufs_mkdir emA).2.1
      = [.branchSelect, .dtimeStore, .whLookup, .nativeMkdir, .diropqCreate,
         .whUnlink, .newInode, .whRecreate, .diropqRemove, .rmdirRevert,
         .dtimeRevert]
    ∧ (emA.diropqRemoveErr ≠ 0 → (aufs_mkdir emA).1 = -eioerr)
    ∧ (emA.rmdirErr ≠ 0 → (aufs_mkdir emA).1 = -eioerr)
    ∧ (aufs_mkdir emB).2.1
        = [.branchSelect, .dtimeStore, .whLookup, .nativeMkdir,
           .diropqCreate, .whUnlink, .diropqRemove, .rmdirRevert,
           .dtimeRevert]
    ∧ (emB.diropqRemoveErr ≠ 0 → (aufs_mkdir emB).1 = -eioerr)
    ∧ (emB.rmdirErr ≠ 0 → (aufs_mkdir emB).1 = -eioerr)
    ∧ (emB.diropqRemoveErr = 0 → emB.rmdirErr = 0 →
        (aufs_mkdir emB).1 = emB.ep.whUnlinkErr)
    ∧ (aufs_mkdir emC).2.1
        = [.branchSelect, .dtimeStore, .nativeMkdir, .newInode,
           .rmdirRevert, .dtimeRevert]
    ∧ (emC.rmdirErr ≠ 0 → (aufs_mkdir emC).1 = -eioerr)
    ∧ (emC.rmdirErr = 0 → (aufs_mkdir emC).2.2 = ⟨false, false⟩
        ∧ (aufs_mkdir emC).1 = emC.ep.newInodeErr)
    ∧ (aufs_mkdir emD).2.1
        = [.branchSelect, .dtimeStore, .whLookup, .nativeMkdir,
           .diropqCreate, .rmdirRevert, .dtimeRevert]
    ∧ (emD.rmdirErr ≠ 0 → (aufs_mkdir emD).1 = -eioerr)
    ∧ (emD.rmdirErr = 0 → (aufs_mkdir emD).2.2 = ⟨false, false⟩
        ∧ (aufs_mkdir emD).1 = emD.diropqCreateErr) := by
  have trA := aufs_mkdir_whfail_trace emA hA
  have resA := aufs_mkdir_whfail_res emA hA
  have trB := aufs_mkdir_whunlink_trace emB hB
  have resB := aufs_mkdir_whunlink_res emB hB
  have evC := aufs_mkdir_nowh_eval emC hC
  have evD := aufs_mkdir_diropq_fail_eval emD hD
  refine ⟨trA, ?_, ?_, trB, ?_, ?_, ?_, ?_, ?_, ?_, ?_, ?_, ?_⟩
  · intro hd
    rw [resA]
    simp [hd]
  · intro hrm
    rw [resA]
    simp [hrm]
  · intro hd
    rw [resB]
    simp [hd]
  · intro hrm
    rw [resB]
    simp [hrm]
  · intro hd hrm
    rw [resB]
    simp [hd, hrm]
  · rw [evC]
    split <;> rfl
  · intro hrm
    rw [evC]
    simp [hrm]
  · intro hrm
    rw [evC]
    simp [hrm]
  · rw [evD]
    split <;> rfl
  · intro hrm
    rw [evD]
    simp [hrm]
  · intro hrm
    rw [evD]
    simp [hrm]

/-- Concrete aufs_mkdir environment for the C2 witness: the opaque
marker was set, au_new_inode failed, and the opaque-marker removal
itself fails during the unwind. -/
def emUnwind : MkdirEnv :=
  ⟨true, 0, false, false,
   ⟨1, 0, false, false, ⟨3, true, false, 0, false, true, true⟩, 1, 0⟩,
   0, 0, ⟨0, -enomem, true⟩, -enospc, 0⟩

/-- Concrete aufs_mkdir environment for the C2 witness in which the
whiteout unlink inside epilog fails after the opaque marker was set. -/
def emWhUnlink : MkdirEnv :=
  ⟨true, 0, false, false,
   ⟨1, 0, false, false, ⟨3, true, false, 0, false, true, true⟩, 1, 0⟩,
   0, 0, ⟨-enospc, 0, true⟩, 0, 0⟩

/-- Concrete aufs_mkdir environment for the C2 witness with no whiteout
(position 2 differs from the resolved branch 1) and au_new_inode
failing. -/
def emNoWh : MkdirEnv :=
  ⟨true, 0, false, false,
   ⟨1, 0, false, false, ⟨3, true, false, 0, false, true, true⟩, 2, 0⟩,
   0, 0, ⟨0, -enomem, true⟩, 0, 0⟩

/-- Concrete aufs_mkdir environment for the C2 witness in which the
opaque-marking step fails right after vfsub_mkdir succeeded. -/
def emOpqFail : MkdirEnv :=
  ⟨true, 0, false, false,
   ⟨1, 0, false, false, ⟨3, true, false, 0, false, true, true⟩, 1, 0⟩,
   0, -enospc, ⟨0, 0, true⟩, 0, 0⟩

/-- C2 witness: concrete evaluation of all four unwind scenarios. -/
theorem mkdir_unwind_full_witness :
    mkdirWhFail emUnwind ∧ mkdirWhUnlinkFail emWhUnlink
    ∧ mkdirNoWhFail emNoWh ∧ mkdirOpqFail emOpqFail
    ∧ ((aufs_mkdir emUnwind).2.1
        = [.branchSelect, .dtimeStore, .whLookup, .nativeMkdir,
           .diropqCreate, .whUnlink, .newInode, .whRecreate, .diropqRemove,
           .rmdirRevert, .dtimeRevert]
       ∧ (emUnwind.diropqRemoveErr ≠ 0 → (aufs_mkdir emUnwind).1 = -eioerr)
       ∧ (emUnwind.rmdirErr ≠ 0 → (aufs_mkdir emUnwind).1 = -eioerr)
       ∧ (aufs_mkdir emWhUnlink).2.1
           = [.branchSelect, .dtimeStore, .whLookup, .nativeMkdir,
              .diropqCreate, .whUnlink, .diropqRemove, .rmdirRevert,
              .dtimeRevert]
       ∧ (emWhUnlink.diropqRemoveErr ≠ 0 →
           (aufs_mkdir emWhUnlink).1 = -eioerr)
       ∧ (emWhUnlink.rmdirErr ≠ 0 → (aufs_mkdir emWhUnlink).1 = -eioerr)
       ∧ (emWhUnlink.diropqRemoveErr = 0 → emWhUnlink.rmdirErr = 0 →
           (aufs_mkdir emWhUnlink).1 = emWhUnlink.ep.whUnlinkErr)
       ∧ (aufs_mkdir emNoWh).2.1
           = [.branchSelect, .dtimeStore, .nativeMkdir, .newInode,
              .rmdirRevert, .dtimeRevert]
       ∧ (emNoWh.rmdirErr ≠ 0 → (aufs_mkdir emNoWh).1 = -eioerr)
       ∧ (emNoWh.rmdirErr = 0 → (aufs_mkdir emNoWh).2.2 = ⟨false, false⟩
           ∧ (aufs_mkdir emNoWh).1 = emNoWh.ep.newInodeErr)
       ∧ (aufs_mkdir emOpqFail).2.1
           = [.branchSelect, .dtimeStore, .whLookup, .nativeMkdir,
              .diropqCreate, .rmdirRevert, .dtimeRevert]
       ∧ (emOpqFail.rmdirErr ≠ 0 → (aufs_mkdir emOpqFail).1 = -eioerr)
       ∧ (emOpqFail.rmdirErr = 0 →
           (aufs_mkdir emOpqFail).2.2 = ⟨false, false⟩
           ∧ (aufs_mkdir emOpqFail).1 = emOpqFail.diropqCreateErr)) :=
  ⟨by decide, by decide, by decide, by decide,
   mkdir_unwind_full emUnwind emWhUnlink emNoWh emOpqFail
     (by decide) (by decide) (by decide) (by decide)⟩

end Aufs
